import Mathlib

/-!
# Verification of the Web-Track-CSID lookup service

Shallow embedding of `src/SCRIPT WEB/script-web-track.py` (a Flask app that
ingests Excel workbooks, caches a per-session column extract, and answers
CSID lookups over it), together with proofs of the specified properties.

Conventions of the embedding:
* pandas cells are `Cell`: either the missing-value marker (`na`, pandas NaN)
  or a value carried by its Python string representation (`val s`, so that
  `astype(str)` is the identity on it and `str()` coercions are identities).
* The process-wide dict `workbook_storage` is an association list in insertion
  order with unique-key dict semantics (`storeSet` replaces in place,
  `storeErase` removes the key, `storeLookup` finds the key's value).
* External library effects (Excel parsing by pandas, xlsx serialization by
  openpyxl) are passed in as an `Except` outcome: the `try`/`except` blocks of
  the handlers dispatch on that outcome exactly as the Python code dispatches
  on an exception being raised.
* HTTP responses are small inductive types recording status class and payload.
-/

set_option autoImplicit false

namespace WebTrack

/-! ## pandas cells and the column-D ingestion pipeline -/

/-- A spreadsheet cell as pandas sees it after `read_excel`: either the
missing-value marker NaN (`na`) or a value, carried by its Python string
representation. -/
inductive Cell where
  | na
  | val (s : String)
  deriving DecidableEq, Repr

/-- Python `str()` of a cell: `str(nan)` is the string `"nan"`. -/
def cellToStr : Cell → String
  | .na => "nan"
  | .val s => s

/-- Pandas `Series.astype(str)`: every element becomes its string representation; in
particular NaN becomes the *string* `"nan"` (and is no longer missing). -/
def astypeStr (col : List Cell) : List Cell :=
  col.map (fun c => Cell.val (cellToStr c))

/-- Pandas `Series.dropna()`: removes the elements that are the missing-value
marker. -/
def dropna (col : List Cell) : List Cell :=
  col.filter (fun c => c ≠ Cell.na)

/-- Pandas `Series.tolist()` on a series of strings. -/
def tolist (col : List Cell) : List String :=
  col.map cellToStr

/-- The pipeline `df.iloc[:, 3].astype(str).dropna().tolist()` — the ingestion applied to
the fourth column (source line 139). -/
def ingestColumnD (colD : List Cell) : List String :=
  tolist (dropna (astypeStr colD))

/-- The per-sheet ingestion of `upload_file` (source lines 138–142): a sheet is
given by its list of columns (each a list of cells in row order); if there are
at least four columns the fourth is run through `ingestColumnD`, otherwise the
sheet maps to the empty list. -/
def ingestSheet (cols : List (List Cell)) : List String :=
  if 4 ≤ cols.length then ingestColumnD (cols.getD 3 []) else []

/-- A raw parsed sheet: its name and its columns. -/
abbrev RawSheet := String × List (List Cell)

/-- The whole-workbook ingestion loop of `upload_file` (source lines 134–142),
in original sheet order. -/
def ingestWorkbook (sheets : List RawSheet) : List (String × List String) :=
  sheets.map (fun s => (s.1, ingestSheet s.2))

/-! ## The session store (`workbook_storage`) -/

/-- The value stored per session by `upload_file` (source lines 146–150). -/
structure StoredEntry where
  data : List (String × List String)
  filename : String
  upload_time : String
  deriving DecidableEq, Repr

/-- The global `workbook_storage`: a Python dict from session id to entry, modelled as an
association list in insertion order with unique keys. -/
abbrev Store := List (String × StoredEntry)

/-- Reading `workbook_storage[sid]`. -/
def storeLookup (st : Store) (sid : String) : Option StoredEntry :=
  (st.find? (fun p => p.1 == sid)).map Prod.snd

/-- Python `sid in workbook_storage`. -/
def storeContains (st : Store) (sid : String) : Bool :=
  (storeLookup st sid).isSome

/-- Assignment `workbook_storage[sid] = entry` (dict assignment: replaces the value in
place if the key is present, appends otherwise). -/
def storeSet (st : Store) (sid : String) (entry : StoredEntry) : Store :=
  if st.any (fun p => p.1 == sid) then
    st.map (fun p => if p.1 == sid then (sid, entry) else p)
  else
    st ++ [(sid, entry)]

/-- Python `del workbook_storage[sid]` (on a dict this removes the key). -/
def storeErase (st : Store) (sid : String) : Store :=
  st.filter (fun p => p.1 != sid)

/-! ## String joining -/

/-- Python `", ".join` at the character level. -/
def joinCSL : List (List Char) → List Char
  | [] => []
  | [t] => t
  | t :: t' :: ts => t ++ ',' :: ' ' :: joinCSL (t' :: ts)

/-- Python `", ".join(strings)`. -/
def joinCS (l : List String) : String :=
  String.mk (joinCSL (l.map String.data))

/-! ## `find_in_all_sheets` (source lines 89–106) -/

/-- Source `find_in_all_sheets(session_id, search_value)`: the lookup engine. The
stored column entries are already strings, so the `str()` coercions of the
source are identities here. -/
def find_in_all_sheets (st : Store) (sid : String) (search_value : String) : String :=
  match storeLookup st sid with
  | none => "No data loaded"
  | some wb =>
    let found_sheets :=
      (wb.data.filter (fun p =>
        (p.2.filter (fun v => v ≠ "nan")).contains search_value)).map Prod.fst
    if found_sheets ≠ [] then joinCS found_sheets else "Not Found"

/-! ## `upload_file` (source lines 116–162) -/

/-- Python's ASCII-range whitespace class `\s` of `re` (space, tab, newline,
carriage return, vertical tab, form feed), which is also what `str.strip()`
removes. -/
def isPySpace (c : Char) : Bool :=
  c = ' ' || c = '\t' || c = '\n' || c = '\r' || c = '\x0b' || c = '\x0c'

/-- Python `str.strip()` at the character level: drop leading and trailing
whitespace. -/
def pyStripL (l : List Char) : List Char :=
  ((l.dropWhile isPySpace).reverse.dropWhile isPySpace).reverse

/-- Python `str.strip()`. -/
def pyStrip (s : String) : String :=
  String.mk (pyStripL s.data)

/-- The check `file.filename.lower().endswith(('.xlsx', '.xls'))` (source line 128). -/
def pyEndsWithExcel (filename : String) : Bool :=
  let low := filename.data.map Char.toLower
  List.isSuffixOf ".xlsx".data low || List.isSuffixOf ".xls".data low

/-- Modelled from the spec: `secure_filename` is werkzeug library code, not
part of this repository; the spec only says the original filename is stored as
metadata, and no claim constrains the sanitized form. Modelled as werkzeug's
documented behaviour restricted to ASCII: keep alphanumerics, dots,
underscores and dashes. -/
def secure_filename (s : String) : String :=
  String.mk (s.data.filter (fun c => c.isAlphanum || c = '.' || c = '_' || c = '-'))

/-- The upload request as the handler sees it: either no `file` part, or a file
with a filename and the outcome of letting pandas parse it (the parse runs
inside the handler's `try`, so an exception is the `error` case). -/
inductive UploadReq where
  | noFile
  | withFile (filename : String) (parsed : Except String (List RawSheet))

/-- The response of `/upload`: a 400 JSON error, a 500 JSON error, or the
success JSON with its message and sheet-name list. -/
inductive UploadResult where
  | badRequest (msg : String)
  | serverError (msg : String)
  | success (message : String) (sheets : List String)
  deriving DecidableEq, Repr

/-- HTTP status code of an `/upload` response. -/
def UploadResult.status : UploadResult → Nat
  | .badRequest _ => 400
  | .serverError _ => 500
  | .success _ _ => 200

/-- Source `upload_file()` (source lines 116–162): validation, parse + ingestion, and
the storage write, returning the new store and the response. The local
`workbook_data` dict is completed before `workbook_storage[session_id]` is
assigned, so a parse failure leaves the store untouched. -/
def upload_file (st : Store) (sid : String) (req : UploadReq) (now : String) :
    Store × UploadResult :=
  match req with
  | .noFile => (st, .badRequest "No file uploaded")
  | .withFile filename parsed =>
    if filename = "" then
      (st, .badRequest "No file selected")
    else if !pyEndsWithExcel filename then
      (st, .badRequest "Please upload an Excel file (.xlsx or .xls)")
    else
      match parsed with
      | .error e => (st, .serverError ("Failed to load Excel file: " ++ e))
      | .ok sheets =>
        let workbook_data := ingestWorkbook sheets
        (storeSet st sid ⟨workbook_data, secure_filename filename, now⟩,
         .success ("Loaded data from " ++ toString workbook_data.length ++ " sheets")
           (workbook_data.map Prod.fst))

/-! ## The bulk-CSID splitter of `add_bulk_csids` (source lines 194–200) -/

/-- The delimiter class of `re.split(r'[\s,;\n\t]+', ...)`: whitespace, comma,
semicolon (`\n` and `\t` are already inside `\s`). -/
def isDelim (c : Char) : Bool :=
  isPySpace c || c = ',' || c = ';'

/-- Python `re.split(r'[\s,;\n\t]+', text)` at the character level: split at every
maximal run of delimiter characters, keeping the (possibly empty) pieces
between runs, including an empty piece at either end when the text starts or
ends with a delimiter. -/
def reSplit : List Char → List (List Char)
  | [] => [[]]
  | c :: rest =>
    if isDelim c then
      match rest with
      | [] => [[], []]
      | d :: _ => if isDelim d then reSplit rest else [] :: reSplit rest
    else
      (c :: (reSplit rest).headD []) :: (reSplit rest).tail

/-- Lines 196–197 of the source: split, strip each token, drop the empty
ones. -/
def bulkSplitL (cs : List Char) : List (List Char) :=
  ((reSplit cs).map pyStripL).filter (fun t => t ≠ [])

/-- The bulk-CSID splitter as a function on strings. -/
def bulkSplit (s : String) : List String :=
  (bulkSplitL s.data).map String.mk

/-! ## `export_data` (source lines 242–275) -/

/-- A JSON record to export: a mapping from column name to value. -/
abbrev ExportRecord := List (String × String)

/-- The response of `/export`: a 400 JSON error, a 500 JSON error, or the
serialized file content with its download name. -/
inductive ExportResult (α : Type) where
  | badRequest (msg : String)
  | serverError (msg : String)
  | file (content : α) (download_name : String)

/-- Whether an `/export` response is an error response. -/
def ExportResult.isError {α : Type} : ExportResult α → Bool
  | .file _ _ => false
  | _ => true

/-- Source `export_data()` (source lines 242–275). Serialization through
pandas/openpyxl is external library code; its outcome (the bytes, or the
exception raised inside the `try`) is the `ser` argument, and the handler
dispatches on it exactly as the source dispatches on an exception. `now` is
the formatted timestamp embedded in the download name. -/
def export_route {α : Type} (records : List ExportRecord)
    (ser : Except String α) (now : String) : ExportResult α :=
  if records = [] then .badRequest "No data to export"
  else
    match ser with
    | .error e => .serverError ("Export failed: " ++ e)
    | .ok content => .file content ("csid_results_" ++ now ++ ".xlsx")

/-! ## `reset_file` (source lines 277–285) -/

/-- Source `reset_file()` (source lines 277–285): delete the session's entry when
present, and always answer `{'success': True, 'message': ...}`. -/
def reset_file (st : Store) (sid : String) : Store × (Bool × String) :=
  if storeContains st sid then
    (storeErase st sid, (true, "File data reset successfully"))
  else
    (st, (true, "File data reset successfully"))

/-! ## The ODP scanner (`/search-odp`) -/

/-- Modelled from the spec: the `/search-odp` route handler belongs to this
repository's second entry-point file, which is not under `src/`. Spec §4.4:
"For every sheet except the sheet literally named `TRACK ODP`, scan data rows
(skipping the header row) and, for every row whose second column (index 1)
trimmed equals the trimmed query, emit a match record containing the third
column (index 2, `ip`) and fourth column (index 3, `csid`)", all matching rows
emitted in sheet-then-row order. A workbook is a list of named sheets, each a
list of rows of string cells. -/
def search_odp (wb : List (String × List (List String))) (odp_id : String) :
    List (String × String) :=
  ((wb.filter (fun s => s.1 ≠ "TRACK ODP")).map (fun s =>
    ((s.2.drop 1).filter (fun row => pyStrip (row.getD 1 "") = pyStrip odp_id)).map
      (fun row => (row.getD 2 "", row.getD 3 "")))).flatten

/-! ## Spec-side definitions (the claims' wording, for comparison) -/

/-- The spec's wording of the lookup result: the sheet names whose extracted
column contains an entry string-equal to the search value (entries equal to
the missing-value marker excluded), in original sheet order. -/
def sheetsContaining (wb : List (String × List String)) (q : String) : List String :=
  (wb.filter (fun p => decide (∃ v ∈ p.2, v = q ∧ v ≠ "nan"))).map Prod.fst

/-- The spec's wording of the lookup: the comma-and-space-joined hit sheet
names, or `"Not Found"` when no sheet matched. -/
def lookupSpec (wb : List (String × List String)) (q : String) : String :=
  if sheetsContaining wb q = [] then "Not Found" else joinCS (sheetsContaining wb q)

/-- The claim's wording of the per-sheet ingestion: extract the fourth column,
drop the missing-value cells, convert the remaining cells to their string
representations, keep row order; fewer than four columns gives the empty
list. -/
def ingestSheetSpec (cols : List (List Cell)) : List String :=
  if 4 ≤ cols.length then
    ((cols.getD 3 []).filter (fun c => c ≠ Cell.na)).map cellToStr
  else []

/-! ## Store lemmas -/

theorem storeLookup_erase (st : Store) (sid : String) :
    storeLookup (storeErase st sid) sid = none := by
  induction st with
  | nil => rfl
  | cons p t ih =>
    by_cases hp : p.1 = sid
    · simp only [storeErase] at ih ⊢
      simp [List.filter_cons, hp, ih]
    · simp only [storeErase] at ih ⊢
      simp [List.filter_cons, hp, storeLookup, List.find?, ih]

theorem storeContains_erase (st : Store) (sid : String) :
    storeContains (storeErase st sid) sid = false := by
  simp [storeContains, storeLookup_erase]

end WebTrack

namespace WebTrack

/-! ## C2: lookup with no loaded workbook -/

/-- C2: for every session identifier with no loaded workbook in the session
store and every search value, `find_in_all_sheets` returns the sentinel
`"No data loaded"`. -/
theorem lookup_no_workbook (st : Store) (sid q : String)
    (h : storeLookup st sid = none) :
    find_in_all_sheets st sid q = "No data loaded" := by
  simp [find_in_all_sheets, h]

/-- Witness for C2 at the empty store. -/
theorem lookup_no_workbook_witness :
    storeLookup ([] : Store) "s" = none ∧
    find_in_all_sheets ([] : Store) "s" "x" = "No data loaded" :=
  ⟨rfl, lookup_no_workbook [] "s" "x" rfl⟩

/-! ## C7: reset followed by lookup -/

/-- C7: after `reset_file`, the session's loaded workbook is gone from the
store and every subsequent lookup for that session returns
`"No data loaded"`. -/
theorem reset_then_lookup_no_data (st : Store) (sid q : String) :
    storeLookup (reset_file st sid).1 sid = none ∧
    find_in_all_sheets (reset_file st sid).1 sid q = "No data loaded" := by
  by_cases hc : storeContains st sid
  · constructor
    · simp [reset_file, hc, storeLookup_erase]
    · simp [reset_file, hc, find_in_all_sheets, storeLookup_erase]
  · have hnone : storeLookup st sid = none := by
      cases h : storeLookup st sid with
      | none => rfl
      | some v => simp [storeContains, h] at hc
    constructor
    · simp [reset_file, hc, hnone]
    · simp [reset_file, hc, find_in_all_sheets, hnone]

/-! ## C10: reset always succeeds and is idempotent -/

/-- C10: `reset_file` always answers the success response; when the session has
no loaded workbook the store is left unchanged; and resetting twice has the
same effect and result as resetting once. -/
theorem reset_success_and_idempotent (st : Store) (sid : String) :
    (reset_file st sid).2 = (true, "File data reset successfully") ∧
    (storeLookup st sid = none → (reset_file st sid).1 = st) ∧
    reset_file (reset_file st sid).1 sid = reset_file st sid := by
  refine ⟨?_, ?_, ?_⟩
  · unfold reset_file; split <;> rfl
  · intro h
    simp [reset_file, storeContains, h]
  · by_cases hc : storeContains st sid
    · simp [reset_file, hc, storeContains_erase]
    · simp [reset_file, hc]

/-- Witness for C10 at a store without the session's entry. -/
theorem reset_success_and_idempotent_witness :
    storeLookup ([] : Store) "s" = none ∧
    (reset_file ([] : Store) "s").2 = (true, "File data reset successfully") ∧
    (reset_file ([] : Store) "s").1 = [] :=
  ⟨rfl, (reset_success_and_idempotent [] "s").1,
   (reset_success_and_idempotent [] "s").2.1 rfl⟩

/-! ## C9: export error cases -/

/-- C9: `export_data` answers an error response whenever the record list is
empty or serialization fails, and an empty record list is always rejected with
the 400 message, never serialized. -/
theorem export_error_cases {α : Type} (records : List ExportRecord)
    (ser : Except String α) (now : String)
    (h : records = [] ∨ ∃ e, ser = Except.error e) :
    (export_route records ser now).isError = true ∧
    (records = [] →
      export_route records ser now = ExportResult.badRequest "No data to export") := by
  constructor
  · rcases h with h | ⟨e, he⟩
    · simp [export_route, h, ExportResult.isError]
    · by_cases hr : records = []
      · simp [export_route, hr, ExportResult.isError]
      · simp [export_route, hr, he, ExportResult.isError]
  · intro hr
    simp [export_route, hr]

/-- Witness for C9: the empty record list with a successful serialization
outcome is still rejected. -/
theorem export_error_cases_witness :
    (export_route ([] : List ExportRecord) (Except.ok (0 : Nat)) "t").isError = true ∧
    export_route ([] : List ExportRecord) (Except.ok (0 : Nat)) "t" =
      ExportResult.badRequest "No data to export" :=
  ⟨(export_error_cases [] (Except.ok 0) "t" (Or.inl rfl)).1,
   (export_error_cases [] (Except.ok 0) "t" (Or.inl rfl)).2 rfl⟩

/-! ## C6: the ODP scanner never scans "TRACK ODP" -/

/-- C6: the sheet literally named `"TRACK ODP"` is excluded from the ODP scan:
prepending such a sheet with arbitrary rows (even matching ones) never changes
the result, and the scan equals the scan of the workbook with that sheet
removed. -/
theorem search_odp_excludes_track_odp (wb : List (String × List (List String)))
    (q : String) (rows : List (List String)) :
    search_odp (("TRACK ODP", rows) :: wb) q = search_odp wb q ∧
    search_odp wb q = search_odp (wb.filter (fun s => s.1 ≠ "TRACK ODP")) q := by
  constructor
  · simp [search_odp]
  · simp [search_odp, List.filter_filter]

/-! ## C1: the lookup over a loaded workbook -/

theorem contains_filter_ne_nan (l : List String) (q : String) :
    (l.filter (fun v => v ≠ "nan")).contains q =
      decide (∃ v ∈ l, v = q ∧ v ≠ "nan") := by
  rw [Bool.eq_iff_iff]
  simp only [List.contains, List.elem_iff, List.mem_filter, decide_eq_true_eq]
  constructor
  · rintro ⟨hmem, hq⟩
    exact ⟨q, hmem, rfl, by simpa using hq⟩
  · rintro ⟨v, hv, rfl, hne⟩
    exact ⟨hv, by simpa using hne⟩

/-- C1: for every session with a loaded workbook and every search value, the
lookup returns the comma-and-space-joined list of exactly those sheet names
whose extracted column contains an entry string-equal to the search value
(entries equal to the missing-value marker `"nan"` excluded), in the
workbook's original sheet order, and `"Not Found"` when no sheet matched. -/
theorem find_in_all_sheets_spec (st : Store) (sid q : String) (wb : StoredEntry)
    (h : storeLookup st sid = some wb) :
    find_in_all_sheets st sid q = lookupSpec wb.data q := by
  have hsheets :
      (wb.data.filter (fun p =>
        (p.2.filter (fun v => v ≠ "nan")).contains q)).map Prod.fst =
        sheetsContaining wb.data q := by
    unfold sheetsContaining
    congr 1
    exact List.filter_congr (fun p _ => contains_filter_ne_nan p.2 q)
  simp only [find_in_all_sheets, h, lookupSpec]
  rw [hsheets]
  by_cases he : sheetsContaining wb.data q = [] <;> simp [he]

/-- Witness for C1 on a concrete three-sheet workbook. -/
theorem find_in_all_sheets_spec_witness :
    storeLookup [("s", ⟨[("S1", ["x", "nan"]), ("S2", ["y"]), ("S3", ["x"])], "f.xlsx", "t"⟩)]
        "s" = some ⟨[("S1", ["x", "nan"]), ("S2", ["y"]), ("S3", ["x"])], "f.xlsx", "t"⟩ ∧
    find_in_all_sheets
        [("s", ⟨[("S1", ["x", "nan"]), ("S2", ["y"]), ("S3", ["x"])], "f.xlsx", "t"⟩)]
        "s" "x" =
      lookupSpec [("S1", ["x", "nan"]), ("S2", ["y"]), ("S3", ["x"])] "x" :=
  ⟨rfl,
   find_in_all_sheets_spec
     [("s", ⟨[("S1", ["x", "nan"]), ("S2", ["y"]), ("S3", ["x"])], "f.xlsx", "t"⟩)]
     "s" "x" ⟨[("S1", ["x", "nan"]), ("S2", ["y"]), ("S3", ["x"])], "f.xlsx", "t"⟩ rfl⟩

/-! ## C3: upload is atomic with respect to the session store -/

theorem pyEndsWithExcel_empty : pyEndsWithExcel "" = false := by decide

/-- C3: a failed parse (or a rejected request) leaves the session store
completely unchanged; only a fully successful parse replaces the session's
entry, and then it is replaced with exactly the ingested workbook. -/
theorem upload_atomic (st : Store) (sid filename now : String) :
    (∀ e, (upload_file st sid (.withFile filename (.error e)) now).1 = st) ∧
    ((upload_file st sid .noFile now).1 = st) ∧
    (∀ sheets, pyEndsWithExcel filename = true →
      (upload_file st sid (.withFile filename (.ok sheets)) now).1 =
        storeSet st sid ⟨ingestWorkbook sheets, secure_filename filename, now⟩) := by
  refine ⟨?_, rfl, ?_⟩
  · intro e
    by_cases hf : filename = ""
    · simp [upload_file, hf]
    · by_cases hx : pyEndsWithExcel filename <;> simp [upload_file, hf, hx]
  · intro sheets hx
    have hf : ¬filename = "" := by
      intro hf
      rw [hf, pyEndsWithExcel_empty] at hx
      exact Bool.false_ne_true hx
    simp [upload_file, hf, hx]

/-- Witness for C3 on a concrete one-sheet upload. -/
theorem upload_atomic_witness :
    (upload_file [] "s" (.withFile "a.xlsx" (.error "boom")) "t").1 = ([] : Store) ∧
    pyEndsWithExcel "a.xlsx" = true ∧
    (upload_file [] "s"
        (.withFile "a.xlsx" (.ok [("S", [[], [], [], [Cell.val "1"]])])) "t").1 =
      storeSet [] "s"
        ⟨ingestWorkbook [("S", [[], [], [], [Cell.val "1"]])], secure_filename "a.xlsx", "t"⟩ :=
  ⟨(upload_atomic [] "s" "a.xlsx" "t").1 "boom", by decide,
   (upload_atomic [] "s" "a.xlsx" "t").2.2 [("S", [[], [], [], [Cell.val "1"]])] (by decide)⟩

/-! ## C8: wrong extension is rejected with 400 before parsing -/

/-- C8: when the filename does not end (case-insensitively) in `.xlsx` or
`.xls`, the upload is answered with HTTP 400, the store is unchanged, and the
response does not depend on the parse outcome (no parsing is consulted). -/
theorem upload_bad_extension_rejected (st : Store) (sid filename now : String)
    (h : pyEndsWithExcel filename = false) (parsed parsed' : Except String (List RawSheet)) :
    (upload_file st sid (.withFile filename parsed) now).1 = st ∧
    (upload_file st sid (.withFile filename parsed) now).2.status = 400 ∧
    (upload_file st sid (.withFile filename parsed) now).2 =
      (upload_file st sid (.withFile filename parsed') now).2 := by
  by_cases hf : filename = ""
  · simp [upload_file, hf, UploadResult.status]
  · simp [upload_file, hf, h, UploadResult.status]

/-- Witness for C8 at a `.txt` filename. -/
theorem upload_bad_extension_rejected_witness :
    pyEndsWithExcel "data.txt" = false ∧
    (upload_file [] "s" (.withFile "data.txt" (.ok [])) "t").1 = ([] : Store) ∧
    (upload_file [] "s" (.withFile "data.txt" (.ok [])) "t").2.status = 400 ∧
    (upload_file [] "s" (.withFile "data.txt" (.ok [])) "t").2 =
      (upload_file [] "s" (.withFile "data.txt" (.error "x")) "t").2 :=
  ⟨by decide,
   (upload_bad_extension_rejected [] "s" "data.txt" "t" (by decide) (.ok []) (.error "x")).1,
   (upload_bad_extension_rejected [] "s" "data.txt" "t" (by decide) (.ok []) (.error "x")).2.1,
   (upload_bad_extension_rejected [] "s" "data.txt" "t" (by decide) (.ok []) (.error "x")).2.2⟩

/-! ## C4: the per-sheet ingestion does not drop missing cells -/

/-- C4 counterexample: on a sheet with four columns whose fourth column is a
single missing cell, the code stores `["nan"]` while the claim requires the
missing cell to be dropped, i.e. `[]`: `dropna()` after `astype(str)` is a
no-op, because NaN has already become the string `"nan"`. -/
theorem ingestSheet_counterexample :
    ingestSheet [[], [], [], [Cell.na]] = ["nan"] ∧
    ingestSheetSpec [[], [], [], [Cell.na]] = [] ∧
    ingestSheet [[], [], [], [Cell.na]] ≠ ingestSheetSpec [[], [], [], [Cell.na]] := by
  refine ⟨rfl, rfl, ?_⟩
  decide

/-- C4 as amended: for a sheet with at least four columns the ingestor stores
the fourth column with every cell converted to its string representation,
missing-value cells included as the string `"nan"` (nothing is dropped), in
row order; with fewer than four columns it stores the empty list. -/
theorem ingestSheet_amended (cols : List (List Cell)) :
    (4 ≤ cols.length → ingestSheet cols = (cols.getD 3 []).map cellToStr) ∧
    (cols.length < 4 → ingestSheet cols = []) := by
  constructor
  · intro h
    simp only [ingestSheet, if_pos h, ingestColumnD, tolist, dropna, astypeStr,
      List.filter_map, List.map_map]
    have hfilter :
        ((cols.getD 3 []).filter
          ((fun c => decide (c ≠ Cell.na)) ∘ fun c => Cell.val (cellToStr c))) =
          cols.getD 3 [] := by
      apply List.filter_eq_self.mpr
      intro c _
      simp [Function.comp]
    rw [hfilter]
    rfl
  · intro h
    simp [ingestSheet, Nat.not_le.mpr h]

/-- Witness for C4's amended statement at a four-column and a two-column
sheet. -/
theorem ingestSheet_amended_witness :
    4 ≤ ([[], [], [], [Cell.na, Cell.val "7"]] : List (List Cell)).length ∧
    ingestSheet [[], [], [], [Cell.na, Cell.val "7"]] =
      (([[], [], [], [Cell.na, Cell.val "7"]] : List (List Cell)).getD 3 []).map cellToStr ∧
    ingestSheet [[], []] = [] :=
  ⟨by decide, (ingestSheet_amended [[], [], [], [Cell.na, Cell.val "7"]]).1 (by decide),
   (ingestSheet_amended [[], []]).2 (by decide)⟩

/-! ## C5: the bulk-CSID splitter

The development below establishes that every token produced by the splitter is
nonempty and free of delimiter characters, and that re-splitting the
comma-and-space join of the splitter's own output returns the same token
list. -/

theorem headD_cons_tail {α : Type} (l : List α) (d : α) (h : l ≠ []) :
    l.headD d :: l.tail = l := by
  cases l with
  | nil => exact absurd rfl h
  | cons a t => rfl

theorem reSplit_ne_nil (cs : List Char) : reSplit cs ≠ [] := by
  induction cs with
  | nil => simp [reSplit]
  | cons c rest ih =>
    cases rest with
    | nil => by_cases hc : isDelim c <;> simp [reSplit, hc]
    | cons d rest' =>
      by_cases hc : isDelim c
      · by_cases hd : isDelim d
        · simpa [reSplit, hc, hd] using ih
        · simp [reSplit, hc, hd]
      · simp [reSplit, hc]

theorem reSplit_chars (cs : List Char) :
    ∀ p ∈ reSplit cs, ∀ c ∈ p, isDelim c = false := by
  induction cs with
  | nil =>
    intro p hp c hc
    simp [reSplit] at hp
    subst hp
    simp at hc
  | cons a rest ih =>
    intro p hp c hc
    by_cases ha : isDelim a
    · cases rest with
      | nil =>
        simp [reSplit, ha] at hp
        subst hp
        simp at hc
      | cons d rest' =>
        by_cases hd : isDelim d
        · rw [show reSplit (a :: d :: rest') = reSplit (d :: rest') by
            simp [reSplit, ha, hd]] at hp
          exact ih p hp c hc
        · rw [show reSplit (a :: d :: rest') = [] :: reSplit (d :: rest') by
            simp [reSplit, ha, hd]] at hp
          rcases List.mem_cons.mp hp with hp | hp
          · subst hp; simp at hc
          · exact ih p hp c hc
    · rw [show reSplit (a :: rest) =
          (a :: (reSplit rest).headD []) :: (reSplit rest).tail by
            simp [reSplit, ha]] at hp
      obtain ⟨q, qs, hqs⟩ := List.exists_cons_of_ne_nil (reSplit_ne_nil rest)
      rw [hqs] at hp
      rcases List.mem_cons.mp hp with hp | hp
      · subst hp
        rcases List.mem_cons.mp hc with hc | hc
        · subst hc
          simpa using ha
        · exact ih q (by rw [hqs]; exact List.mem_cons_self q qs) c (by simpa using hc)
      · exact ih p (by rw [hqs]; exact List.mem_cons_of_mem q hp) c hc

theorem reSplit_append_clean (t : List Char) (cs : List Char)
    (ht : ∀ c ∈ t, isDelim c = false) :
    reSplit (t ++ cs) = (t ++ (reSplit cs).headD []) :: (reSplit cs).tail := by
  induction t with
  | nil =>
    simp only [List.nil_append]
    exact (headD_cons_tail (reSplit cs) [] (reSplit_ne_nil cs)).symm
  | cons a t' ih =>
    have ha : isDelim a = false := ht a (List.mem_cons_self a t')
    have ih' := ih (fun c hc => ht c (List.mem_cons_of_mem a hc))
    rw [show reSplit (a :: t' ++ cs) =
        (a :: (reSplit (t' ++ cs)).headD []) :: (reSplit (t' ++ cs)).tail by
          simp [reSplit, ha]]
    rw [ih']
    simp

theorem reSplit_comma_space (x : Char) (cs : List Char) (hx : isDelim x = false) :
    reSplit (',' :: ' ' :: x :: cs) = [] :: reSplit (x :: cs) := by
  have h1 : isDelim ',' = true := by decide
  have h2 : isDelim ' ' = true := by decide
  rw [show reSplit (',' :: ' ' :: x :: cs) = reSplit (' ' :: x :: cs) by
    simp [reSplit, h1, h2]]
  simp [reSplit, h2, hx]

theorem dropWhile_eq_self_of_all {α : Type} (p : α → Bool) (l : List α)
    (h : ∀ c ∈ l, p c = false) : l.dropWhile p = l := by
  cases l with
  | nil => rfl
  | cons a t => simp [List.dropWhile_cons, h a (List.mem_cons_self a t)]

theorem isPySpace_delim (c : Char) (h : isPySpace c = true) : isDelim c = true := by
  simp [isDelim, h]

theorem pyStripL_clean (t : List Char) (ht : ∀ c ∈ t, isDelim c = false) :
    pyStripL t = t := by
  have hsp : ∀ c ∈ t, isPySpace c = false := by
    intro c hc
    by_cases h : isPySpace c
    · have := isPySpace_delim c h
      rw [ht c hc] at this
      exact absurd this (by simp)
    · simpa using h
  unfold pyStripL
  rw [dropWhile_eq_self_of_all isPySpace t hsp]
  rw [dropWhile_eq_self_of_all isPySpace t.reverse
    (fun c hc => hsp c (List.mem_reverse.mp hc))]
  exact List.reverse_reverse t

theorem bulkSplitL_clean (cs : List Char) :
    ∀ t ∈ bulkSplitL cs, t ≠ [] ∧ ∀ c ∈ t, isDelim c = false := by
  intro t ht
  unfold bulkSplitL at ht
  obtain ⟨htmem, htne⟩ := List.mem_filter.mp ht
  obtain ⟨p, hp, hpt⟩ := List.mem_map.mp htmem
  have hclean : ∀ c ∈ p, isDelim c = false := reSplit_chars cs p hp
  have hstrip : pyStripL p = p := pyStripL_clean p hclean
  have htne' : p ≠ [] := by
    rw [← hpt, hstrip] at htne
    exact of_decide_eq_true htne
  rw [← hpt, hstrip]
  exact ⟨htne', hclean⟩

theorem bulkSplitL_joinCSL : ∀ ts : List (List Char),
    (∀ t ∈ ts, t ≠ [] ∧ ∀ c ∈ t, isDelim c = false) →
    bulkSplitL (joinCSL ts) = ts := by
  intro ts
  induction ts with
  | nil => intro _; decide
  | cons t ts' ih =>
    intro h
    obtain ⟨htne, htclean⟩ := h t (List.mem_cons_self t ts')
    cases ts' with
    | nil =>
      have hre : reSplit t = [t] := by
        have happ := reSplit_append_clean t [] htclean
        simpa [reSplit] using happ
      show bulkSplitL (joinCSL [t]) = [t]
      rw [show joinCSL [t] = t from rfl]
      unfold bulkSplitL
      rw [hre]
      simp [pyStripL_clean t htclean, htne]
    | cons t2 ts'' =>
      obtain ⟨ht2ne, ht2clean⟩ :=
        h t2 (List.mem_cons_of_mem t (List.mem_cons_self t2 ts''))
      obtain ⟨x, t2', hx⟩ := List.exists_cons_of_ne_nil ht2ne
      obtain ⟨z, hz⟩ : ∃ z, joinCSL (t2 :: ts'') = t2 ++ z := by
        cases ts'' with
        | nil => exact ⟨[], by simp [joinCSL]⟩
        | cons t3 ts3 => exact ⟨',' :: ' ' :: joinCSL (t3 :: ts3), rfl⟩
      have hxdelim : isDelim x = false :=
        ht2clean x (by rw [hx]; exact List.mem_cons_self x t2')
      have hre2 : reSplit (',' :: ' ' :: joinCSL (t2 :: ts'')) =
          [] :: reSplit (joinCSL (t2 :: ts'')) := by
        rw [hz, hx, List.cons_append]
        exact reSplit_comma_space x (t2' ++ z) hxdelim
      have hre1 : reSplit (joinCSL (t :: t2 :: ts'')) =
          t :: reSplit (joinCSL (t2 :: ts'')) := by
        rw [show joinCSL (t :: t2 :: ts'') =
            t ++ ',' :: ' ' :: joinCSL (t2 :: ts'') from rfl]
        rw [reSplit_append_clean t _ htclean, hre2]
        simp
      unfold bulkSplitL
      rw [hre1, List.map_cons, List.filter_cons]
      rw [pyStripL_clean t htclean]
      rw [if_pos (by simp [htne])]
      have htail := ih (fun u hu => h u (List.mem_cons_of_mem t hu))
      unfold bulkSplitL at htail
      rw [htail]

/-- C5: the bulk-CSID splitter on the spec's example, and its idempotence: the
split of `"A, B;C\nD"` is `["A","B","C","D"]`, and re-splitting the
comma-and-space join of the splitter's own output yields the same token
list. -/
theorem bulkSplit_example_and_idempotent :
    bulkSplit "A, B;C\nD" = ["A", "B", "C", "D"] ∧
    ∀ s : String, bulkSplit (joinCS (bulkSplit s)) = bulkSplit s := by
  constructor
  · decide
  · intro s
    unfold bulkSplit joinCS
    have hcomp : (String.data ∘ String.mk) = id := funext (fun l => rfl)
    rw [List.map_map, hcomp, List.map_id]
    rw [show (String.mk (joinCSL (bulkSplitL s.data))).data =
        joinCSL (bulkSplitL s.data) from rfl]
    rw [bulkSplitL_joinCSL (bulkSplitL s.data) (bulkSplitL_clean s.data)]

end WebTrack
